import Mathlib

/-!
Verification of the Structurely-GHL sync service against its specification.

The source of authority is `src/unnamed/part_000` (the variant with retry
logic, the recency cutoff and the run counters); `src/index.js` and
`src/unnamed/part_001` are earlier near-duplicates of the same script and
are consulted where the claims cite them.

Modelling conventions:
- JavaScript strings are Lean `String`s; JS string falsiness (`s || d`) is
  `jsOr` (only the empty string is falsy among strings).
- The JS relational operator `<` on strings compares code units
  lexicographically; it is modelled by `jsStrLt` below, an explicit
  lexicographic comparison of the character lists.
- JS numbers that the program produces from `parseFloat` / `parseInt` are
  modelled by `JSNum`: either NaN or a rational value.  `null`/absent is
  `Option.none` one level up.
- `Date.toISOString` produces, for the dates the service can encounter, a
  fixed-width string whose lexicographic order agrees with chronological
  order; it is modelled by `isoStr`, an order-embedding of instants
  (naturals, e.g. milliseconds since the epoch) into strings via
  fixed-width decimal notation.
- Remote HTTP effects are modelled by an oracle (`SyncEnv`) giving the
  outcome of each remote operation after its internal retries; pacing
  sleeps and log lines carry no data and are not modelled, except that the
  retry wrapper's pauses are recorded as a list of durations.
-/

/-- JS `a || b` for strings: only the empty string is falsy. -/
def jsOr (a b : String) : String := if a = "" then b else a

/-- JS `String.prototype.trim` (restricted to ordinary spaces, the only
whitespace the program can produce when gluing `firstName` and `lastName`). -/
def jsTrim (s : String) : String :=
  ⟨((s.data.dropWhile (fun c => c = ' ')).reverse.dropWhile (fun c => c = ' ')).reverse⟩

/-- Lexicographic comparison of character lists, exactly the order JS uses
for `<` / `>` on strings (code-unit by code-unit, shorter prefix first). -/
def charListLt : List Char → List Char → Bool
  | [], [] => false
  | [], _ :: _ => true
  | _ :: _, [] => false
  | a :: as, b :: bs => if a < b then true else if b < a then false else charListLt as bs

/-- JS `a < b` on strings. -/
def jsStrLt (a b : String) : Bool := charListLt a.data b.data

/-- The decimal digit character for `d < 10`. -/
def digitChar (d : Nat) : Char := Char.ofNat (48 + d)

/-- Fixed-width (`w` digits, most significant first, zero padded) decimal
notation of `n < 10 ^ w`. -/
def padDec : Nat → Nat → List Char
  | 0, _ => []
  | w + 1, n => digitChar (n / 10 ^ w) :: padDec w (n % 10 ^ w)

/-- Model of `Date.toISOString` as an order-embedding of instants into
strings: a fixed-width decimal rendering (15 digits covers every realistic
millisecond timestamp).  Real ISO-8601 UTC strings of the fixed 24-character
format compare lexicographically exactly as the instants they denote, which
is the only property of `toISOString` the program relies on. -/
def isoStr (n : Nat) : String := ⟨padDec 15 n⟩

/-- A JS number as produced by `parseFloat` / `parseInt`: NaN or a rational. -/
inductive JSNum where
  | nan : JSNum
  | num : ℚ → JSNum
deriving DecidableEq

/-- Numeric value of a list of decimal digit characters. -/
def digitsVal (l : List Char) : Nat :=
  l.foldl (fun a c => 10 * a + (c.toNat - 48)) 0

/-- JS `parseFloat`: skip leading spaces, optional sign, then the longest
prefix of `digits [ "." digits ]`; no digit at all gives NaN; trailing
garbage is ignored.  (Exponents, `Infinity` and hex forms never occur in
this program's inputs and are not modelled.) -/
def parseFloat (s : String) : JSNum :=
  let l := s.data.dropWhile (fun c => c = ' ')
  let sign : Bool := l.head? = some '-'
  let l := if l.head? = some '-' ∨ l.head? = some '+' then l.tail else l
  let ip := l.takeWhile Char.isDigit
  let rest := l.dropWhile Char.isDigit
  let fp := if rest.head? = some '.' then rest.tail.takeWhile Char.isDigit else []
  if ip = [] ∧ fp = [] then JSNum.nan
  else
    let q : ℚ := mkRat (digitsVal ip * 10 ^ fp.length + digitsVal fp) (10 ^ fp.length)
    JSNum.num (if sign then -q else q)

/-- JS `parseInt` with no radix argument on a decimal string: skip leading
spaces, optional sign, longest digit prefix; no digit gives NaN. -/
def parseInt (s : String) : JSNum :=
  let l := s.data.dropWhile (fun c => c = ' ')
  let sign : Bool := l.head? = some '-'
  let l := if l.head? = some '-' ∨ l.head? = some '+' then l.tail else l
  let ip := l.takeWhile Char.isDigit
  if ip = [] then JSNum.nan
  else
    let q : ℚ := mkRat (digitsVal ip) 1
    JSNum.num (if sign then -q else q)

/-- A GHL contact as read from the contact store.  Absent optional display
fields are the empty string (JS `undefined` and `""` are observationally
equal everywhere the program reads them, since each read goes through
`|| default`); an absent `customField` object is the empty list. -/
structure Contact where
  id : String
  firstName : String
  lastName : String
  email : String
  phone : String
  notes : String
  customField : List (String × String)
deriving DecidableEq

/-- `getCustomFieldValue(contact, fieldName)` from `part_000` (all call
sites use the default `""`): returns the field's value unless the object or
the entry is missing or the value is falsy. -/
def getCustomFieldValue (contact : Contact) (fieldName : String) : String :=
  match contact.customField.lookup fieldName with
  | some v => if v = "" then "" else v
  | none => ""

/-- The last-synced value the filter reads, across both known aliases
(`part_000`, lines 380-382). -/
def lastSyncedOf (contact : Contact) : String :=
  jsOr (getCustomFieldValue contact "structurely_last_synced")
    (getCustomFieldValue contact "str_last_synced")

/-- The eligibility filter: the body of the `contacts.filter` callback in
`periodicSync` (`part_000`, lines 371-392).  `syncedContacts` is the
seen-id set at the time the filter runs, `syncCutoffTimeString` the cutoff
string; the recency test is the JS string comparison
`lastSynced > syncCutoffTimeString`. -/
def isEligible (contact : Contact) (syncedContacts : List String)
    (syncCutoffTimeString : String) : Bool :=
  if syncedContacts.contains contact.id then false
  else
    let lastSynced := lastSyncedOf contact
    if lastSynced ≠ "" ∧ jsStrLt syncCutoffTimeString lastSynced then false
    else true

/-- The intermediate `ghlLead` record built per contact in `periodicSync`
(`part_000`, lines 415-430). -/
structure GhlLead where
  id : String
  name : String
  email : String
  phone : String
  priceMin : String
  priceMax : String
  bedrooms : String
  bathrooms : String
  timeframe : String
  location : String
  propertyType : String
  leadType : String
  notes : String
deriving DecidableEq

/-- Construction of the `ghlLead` record from a contact in `periodicSync`
(`part_000`, lines 415-430): custom fields default to `"0"` for the four
numeric fields and `""` for the text fields. -/
def ghlLeadOfContact (contact : Contact) : GhlLead :=
  { id := contact.id
    name := jsTrim (contact.firstName ++ " " ++ contact.lastName)
    email := contact.email
    phone := contact.phone
    priceMin := jsOr (getCustomFieldValue contact "property_min_price") "0"
    priceMax := jsOr (getCustomFieldValue contact "property_max_price") "0"
    bedrooms := jsOr (getCustomFieldValue contact "bedrooms") "0"
    bathrooms := jsOr (getCustomFieldValue contact "bathrooms") "0"
    timeframe := jsOr (getCustomFieldValue contact "timeframe") ""
    location := jsOr (getCustomFieldValue contact "location") ""
    propertyType := "residential"
    leadType := "raw_lead"
    notes := jsOr contact.notes "" }

/-- The request body `syncLeadToStructurely` posts to the lead store
(`part_000`, lines 37-71).  The four numeric properties are `null` exactly
when the corresponding string field of the lead record is falsy (empty);
otherwise they carry the `parseFloat` / `parseInt` of the string. -/
structure LeadPayload where
  externalLeadId : String
  name : String
  email : String
  phone : String
  source : String
  priceMin : Option JSNum
  priceMax : Option JSNum
  bedrooms : Option JSNum
  bathrooms : Option JSNum
  timeframe : String
  location : String
  propertyType : String
  leadType : String
  notes : String
deriving DecidableEq

/-- The payload construction in `syncLeadToStructurely` (`part_000`,
lines 37-71). -/
def structurelyPayload (ghlLead : GhlLead) : LeadPayload :=
  { externalLeadId := ghlLead.id
    name := ghlLead.name
    email := jsOr ghlLead.email "unknown@example.com"
    phone := jsOr ghlLead.phone "+10000000000"
    source := "GoHighLevel"
    priceMin := if ghlLead.priceMin = "" then none else some (parseFloat ghlLead.priceMin)
    priceMax := if ghlLead.priceMax = "" then none else some (parseFloat ghlLead.priceMax)
    bedrooms := if ghlLead.bedrooms = "" then none else some (parseInt ghlLead.bedrooms)
    bathrooms := if ghlLead.bathrooms = "" then none else some (parseInt ghlLead.bathrooms)
    timeframe := ghlLead.timeframe
    location := ghlLead.location
    propertyType := "residential"
    leadType := "raw_lead"
    notes := ghlLead.notes }

/-- The `properties` object of a lead fetched from the lead store.  Absent
properties are `none`. -/
structure LeadProps where
  priceMin : Option JSNum := none
  priceMax : Option JSNum := none
  bedrooms : Option JSNum := none
  bathrooms : Option JSNum := none
  timeframe : Option String := none
  location : Option String := none
  propertyType : Option String := none
  notes : Option String := none
deriving DecidableEq

/-- A lead record as returned by the lead store (`GET /leads/id`). -/
structure StructLead where
  id : String
  name : String := ""
  properties : Option LeadProps := none
  stages : Option (List String) := none
  muted : Bool := false
  leadKind : Option String := none
deriving DecidableEq

/-- A value written into a contact custom field: the program writes both
strings and raw lead-store numbers. -/
inductive CVal where
  | s : String → CVal
  | n : JSNum → CVal
deriving DecidableEq

/-- `lead.properties?.f` -/
def propNum (lead : StructLead) (f : LeadProps → Option JSNum) : Option JSNum :=
  match lead.properties with
  | some p => f p
  | none => none

/-- `lead.properties?.f || ""` for the numeric properties: `undefined`,
`null`, `0` and `NaN` are all falsy in JS and collapse to `""`. -/
def numOrEmpty (x : Option JSNum) : CVal :=
  match x with
  | some (JSNum.num q) => if q = 0 then CVal.s "" else CVal.n (JSNum.num q)
  | _ => CVal.s ""

/-- `lead.properties?.f || ""` for the string properties. -/
def propStr (lead : StructLead) (f : LeadProps → Option String) : String :=
  match lead.properties with
  | some p => jsOr ((f p).getD "") ""
  | none => ""

/-- `lead.stages?.join(", ") || ""`. -/
def stagesJoined (lead : StructLead) : String :=
  match lead.stages with
  | some l => jsOr (String.intercalate ", " l) ""
  | none => ""

/-- The `customFieldData` map `syncLeadFromStructurely` writes back to the
contact (`part_000`, lines 142-183), in assignment order: the alias block
first, then the original field names (the inner `try` block's plain
assignments cannot throw, so every assignment executes).  All keys are
distinct, so the JS object is faithfully an association list.  `now` is the
value of `new Date().toISOString()` at write time. -/
def customFieldData (lead : StructLead) (now : String) : List (String × CVal) :=
  [ ("structurely_id", CVal.s lead.id)
  , ("structurely_reference", CVal.s lead.id)
  , ("structurely_lead_ref", CVal.s lead.id)
  , ("str_price_max", numOrEmpty (propNum lead LeadProps.priceMax))
  , ("str_price_min", numOrEmpty (propNum lead LeadProps.priceMin))
  , ("str_bedrooms", numOrEmpty (propNum lead LeadProps.bedrooms))
  , ("str_bathrooms", numOrEmpty (propNum lead LeadProps.bathrooms))
  , ("str_conversation_status", CVal.s (stagesJoined lead))
  , ("str_lead_type", CVal.s (jsOr (lead.leadKind.getD "") ""))
  , ("str_timeframe", CVal.s (propStr lead LeadProps.timeframe))
  , ("str_location", CVal.s (propStr lead LeadProps.location))
  , ("str_property_type", CVal.s (propStr lead LeadProps.propertyType))
  , ("str_muted", CVal.s (if lead.muted then "Yes" else "No"))
  , ("str_notes", CVal.s (propStr lead LeadProps.notes))
  , ("str_conversation_link", CVal.s ("https://homechat.structurely.com/#/inbox/" ++ lead.id))
  , ("str_last_synced", CVal.s now)
  , ("structurely_lead_id", CVal.s lead.id)
  , ("structurely_price_max", numOrEmpty (propNum lead LeadProps.priceMax))
  , ("structurely_price_min", numOrEmpty (propNum lead LeadProps.priceMin))
  , ("structurely_bedrooms", numOrEmpty (propNum lead LeadProps.bedrooms))
  , ("structurely_bathrooms", numOrEmpty (propNum lead LeadProps.bathrooms))
  , ("structurely_ai_conversation_status", CVal.s (stagesJoined lead))
  , ("structurely_lead_type", CVal.s (jsOr (lead.leadKind.getD "") ""))
  , ("structurely_timeframe", CVal.s (propStr lead LeadProps.timeframe))
  , ("structurely_location", CVal.s (propStr lead LeadProps.location))
  , ("structurely_property_type", CVal.s (propStr lead LeadProps.propertyType))
  , ("structurely_muted", CVal.s (if lead.muted then "Yes" else "No"))
  , ("structurely_notes", CVal.s (propStr lead LeadProps.notes))
  , ("structurely_ai_conversation_link", CVal.s ("https://homechat.structurely.com/#/inbox/" ++ lead.id))
  , ("structurely_last_synced", CVal.s now) ]

/-- The bounded-retry loop used at every remote call site of `part_000`
(`while (retryCount <= maxRetries) ...` with `delay = base * retryCount`).
`op k` is the outcome of the attempt made while `retryCount = k`; `n` is
the number of retries still allowed.  Returns the final outcome and the
list of pause durations taken between attempts. -/
def retryGo (op : Nat → Except E A) (base : Nat) (k : Nat) : Nat → Except E A × List Nat
  | 0 => (op k, [])
  | n + 1 =>
    match op k with
    | Except.ok a => (Except.ok a, [])
    | Except.error _ =>
      let r := retryGo op base (k + 1) n
      (r.1, base * (k + 1) :: r.2)

/-- The retry wrapper with maximum retry count `maxRetries`: attempts run
at `retryCount = 0, 1, ..., maxRetries` (hence `maxRetries + 1` attempts);
after a failure with `retryCount + 1 > maxRetries` the error of that final
attempt propagates unchanged. -/
def retryCall (op : Nat → Except E A) (base maxRetries : Nat) : Except E A × List Nat :=
  retryGo op base 0 maxRetries

/-- `SYNC_BATCH_SIZE` (`part_000`, line 7). -/
def SYNC_BATCH_SIZE : Nat := 10

/-- Oracle for the remote services, giving the outcome of each composite
remote operation (each already wrapped in its own retry loop):
`fetchPage` is `getGHLContacts SYNC_BATCH_SIZE offset`, `pushLead` is the
`POST /leads` of `syncLeadToStructurely` on the given payload, `fetchLead`
the `GET /leads/id`, and `updateContact` tells whether the `PUT
/contacts/id` write-back succeeds. -/
structure SyncEnv where
  fetchPage : Nat → Except Unit (List Contact)
  pushLead : LeadPayload → Except Unit StructLead
  fetchLead : String → Except Unit StructLead
  updateContact : String → Bool

/-- The in-memory state of one `periodicSync` run, plus two observation
traces: `writes` records each successful contact write-back (contact id and
the map written) and `processedIds` records the `Processing: ...` log line
emitted per processed contact. -/
structure RunState where
  offset : Nat
  syncedContacts : List String
  totalProcessed : Nat
  totalSuccess : Nat
  totalSkipped : Nat
  totalFailed : Nat
  writes : List (String × List (String × CVal))
  processedIds : List String
deriving DecidableEq

/-- The state at the start of a run (`part_000`, lines 334-340). -/
def initState : RunState :=
  { offset := 0, syncedContacts := [], totalProcessed := 0, totalSuccess := 0
    totalSkipped := 0, totalFailed := 0, writes := [], processedIds := [] }

/-- The body of the per-contact `for` loop in `periodicSync` (`part_000`,
lines 397-449): count the contact as processed, add its id to the seen set,
run push then fetch-back then write-back; any failure increments
`totalFailed` and the loop moves on. -/
def processContact (env : SyncEnv) (now : String) (st : RunState) (contact : Contact) :
    RunState :=
  let st :=
    { st with totalProcessed := st.totalProcessed + 1
              processedIds := st.processedIds ++ [contact.id]
              syncedContacts := st.syncedContacts.insert contact.id }
  match env.pushLead (structurelyPayload (ghlLeadOfContact contact)) with
  | Except.error _ => { st with totalFailed := st.totalFailed + 1 }
  | Except.ok structurelyLead =>
    match env.fetchLead structurelyLead.id with
    | Except.error _ => { st with totalFailed := st.totalFailed + 1 }
    | Except.ok lead =>
      if env.updateContact contact.id then
        { st with totalSuccess := st.totalSuccess + 1
                  writes := st.writes ++ [(contact.id, customFieldData lead now)] }
      else { st with totalFailed := st.totalFailed + 1 }

/-- Handling of one successfully fetched page (`part_000`, lines 370-449):
the eligibility filter runs over the whole page first (each rejected
contact bumps `totalSkipped`), then the kept contacts are processed in
order. -/
def processPage (env : SyncEnv) (now cutoff : String) (st : RunState)
    (contacts : List Contact) : RunState :=
  let contactsToSync := contacts.filter (fun c => isEligible c st.syncedContacts cutoff)
  let st := { st with totalSkipped := st.totalSkipped + (contacts.length - contactsToSync.length) }
  contactsToSync.foldl (processContact env now) st

/-- The `while (hasMore)` pagination loop of `periodicSync` (`part_000`,
lines 347-461), indexed by fuel (one unit per iteration).  The returned
flag is true when the loop exited through one of its own stop conditions
(empty page, or short page) and false when the fuel ran out first.  A fetch
failure advances the offset by `SYNC_BATCH_SIZE` and continues; pacing
sleeps carry no data and are not modelled. -/
def runSync (env : SyncEnv) (now cutoff : String) : Nat → RunState → RunState × Bool
  | 0, st => (st, false)
  | fuel + 1, st =>
    match env.fetchPage st.offset with
    | Except.error _ =>
      runSync env now cutoff fuel { st with offset := st.offset + SYNC_BATCH_SIZE }
    | Except.ok contacts =>
      if contacts.length = 0 then (st, true)
      else
        let st1 := processPage env now cutoff st contacts
        let st2 := { st1 with offset := st1.offset + contacts.length }
        if contacts.length < SYNC_BATCH_SIZE then (st2, true)
        else runSync env now cutoff fuel st2

/-- One full run of `periodicSync` from the initial state. -/
def periodicSync (env : SyncEnv) (now cutoff : String) (fuel : Nat) : RunState × Bool :=
  runSync env now cutoff fuel initState

/-- The run terminates (reaches DONE) for some amount of fuel. -/
def runTerminates (env : SyncEnv) (now cutoff : String) : Prop :=
  ∃ fuel, (periodicSync env now cutoff fuel).2 = true

example : parseFloat "400000" = JSNum.num 400000 := by decide
example : parseFloat "0" = JSNum.num 0 := by decide
example : parseFloat "abc" = JSNum.nan := by decide
example : parseInt "3" = JSNum.num 3 := by decide
example : jsStrLt "2020-01-01T00:00:00.000Z" "zzz" = true := by decide
example : jsTrim "Jane " = "Jane" := by decide

/-! ### Helper lemmas about the per-contact step -/

theorem processContact_processedIds (env : SyncEnv) (now : String) (st : RunState)
    (c : Contact) :
    (processContact env now st c).processedIds = st.processedIds ++ [c.id] := by
  unfold processContact
  cases env.pushLead (structurelyPayload (ghlLeadOfContact c)) with
  | error e => rfl
  | ok lead =>
    dsimp only
    cases env.fetchLead lead.id with
    | error e => rfl
    | ok lead2 =>
      dsimp only
      by_cases h : env.updateContact c.id = true <;> simp [h]

theorem processContact_syncedContacts (env : SyncEnv) (now : String) (st : RunState)
    (c : Contact) :
    (processContact env now st c).syncedContacts = st.syncedContacts.insert c.id := by
  unfold processContact
  cases env.pushLead (structurelyPayload (ghlLeadOfContact c)) with
  | error e => rfl
  | ok lead =>
    dsimp only
    cases env.fetchLead lead.id with
    | error e => rfl
    | ok lead2 =>
      dsimp only
      by_cases h : env.updateContact c.id = true <;> simp [h]

theorem processContact_push_error (env : SyncEnv) (now : String) (st : RunState)
    (c : Contact)
    (h : env.pushLead (structurelyPayload (ghlLeadOfContact c)) = Except.error ()) :
    processContact env now st c =
      { st with totalProcessed := st.totalProcessed + 1
                processedIds := st.processedIds ++ [c.id]
                syncedContacts := st.syncedContacts.insert c.id
                totalFailed := st.totalFailed + 1 } := by
  unfold processContact
  rw [h]

theorem processContact_ok (env : SyncEnv) (now : String) (st : RunState) (c : Contact)
    (lead lead2 : StructLead)
    (h1 : env.pushLead (structurelyPayload (ghlLeadOfContact c)) = Except.ok lead)
    (h2 : env.fetchLead lead.id = Except.ok lead2)
    (h3 : env.updateContact c.id = true) :
    processContact env now st c =
      { st with totalProcessed := st.totalProcessed + 1
                processedIds := st.processedIds ++ [c.id]
                syncedContacts := st.syncedContacts.insert c.id
                totalSuccess := st.totalSuccess + 1
                writes := st.writes ++ [(c.id, customFieldData lead2 now)] } := by
  unfold processContact
  rw [h1]
  dsimp only
  rw [h2]
  dsimp only
  rw [h3]
  simp

theorem foldl_processContact_processedIds (env : SyncEnv) (now : String) :
    ∀ (l : List Contact) (st : RunState),
      (l.foldl (processContact env now) st).processedIds =
        st.processedIds ++ l.map Contact.id := by
  intro l
  induction l with
  | nil => intro st; simp
  | cons c l ih =>
    intro st
    simp only [List.foldl_cons, List.map_cons, ih, processContact_processedIds]
    simp

theorem foldl_processContact_seen_mem (env : SyncEnv) (now : String) :
    ∀ (l : List Contact) (st : RunState) (x : String),
      x ∈ (l.foldl (processContact env now) st).syncedContacts ↔
        x ∈ st.syncedContacts ∨ x ∈ l.map Contact.id := by
  intro l
  induction l with
  | nil => intro st x; simp
  | cons c l ih =>
    intro st x
    simp only [List.foldl_cons, List.map_cons, ih, processContact_syncedContacts,
      List.mem_insert_iff, List.mem_cons]
    tauto

theorem isEligible_true_not_seen (c : Contact) (seen : List String) (cutoff : String)
    (h : isEligible c seen cutoff = true) : c.id ∉ seen := by
  intro hmem
  unfold isEligible at h
  rw [if_pos (by simpa using hmem)] at h
  exact Bool.false_ne_true h

theorem isEligible_of_seen (c : Contact) (seen : List String) (cutoff : String)
    (h : c.id ∈ seen) : isEligible c seen cutoff = false := by
  unfold isEligible
  rw [if_pos (by simpa using h)]

/-- The two-part invariant the dedup argument needs: the trace of processed
ids has no duplicate, and every processed id has been put in the seen set. -/
def RunInv (st : RunState) : Prop :=
  st.processedIds.Nodup ∧ ∀ x ∈ st.processedIds, x ∈ st.syncedContacts

theorem processPage_inv (env : SyncEnv) (now cutoff : String) (st : RunState)
    (contacts : List Contact) (hpage : (contacts.map Contact.id).Nodup)
    (hinv : RunInv st) : RunInv (processPage env now cutoff st contacts) := by
  unfold processPage
  set elig := contacts.filter (fun c => isEligible c st.syncedContacts cutoff) with helig
  have hsub : (elig.map Contact.id).Sublist (contacts.map Contact.id) :=
    (List.filter_sublist contacts).map Contact.id
  have heligNodup : (elig.map Contact.id).Nodup := hpage.sublist hsub
  have hnotSeen : ∀ x ∈ elig.map Contact.id, x ∉ st.syncedContacts := by
    intro x hx hxSeen
    rcases List.mem_map.mp hx with ⟨c, hc, rfl⟩
    have := List.of_mem_filter hc
    exact isEligible_true_not_seen c st.syncedContacts cutoff this hxSeen
  constructor
  · rw [foldl_processContact_processedIds]
    refine List.Nodup.append hinv.1 heligNodup ?_
    intro x hx hx2
    exact hnotSeen x hx2 (hinv.2 x hx)
  · intro x hx
    rw [foldl_processContact_processedIds] at hx
    rw [foldl_processContact_seen_mem]
    rcases List.mem_append.mp hx with hx | hx
    · exact Or.inl (hinv.2 x hx)
    · exact Or.inr hx

theorem runSync_inv (env : SyncEnv) (now cutoff : String)
    (hpages : ∀ off contacts, env.fetchPage off = Except.ok contacts →
      (contacts.map Contact.id).Nodup) :
    ∀ (fuel : Nat) (st : RunState), RunInv st →
      RunInv (runSync env now cutoff fuel st).1 := by
  intro fuel
  induction fuel with
  | zero => intro st h; exact h
  | succ fuel ih =>
    intro st h
    unfold runSync
    cases hfp : env.fetchPage st.offset with
    | error e => exact ih _ h
    | ok contacts =>
      by_cases hz : contacts.length = 0
      · simp only [hz, if_pos rfl]
        exact h
      · have hpi := processPage_inv env now cutoff st contacts (hpages _ _ hfp) h
        simp only [if_neg hz]
        by_cases hlt : contacts.length < SYNC_BATCH_SIZE
        · simp only [if_pos hlt]
          exact hpi
        · simp only [if_neg hlt]
          exact ih _ hpi

/-- The contact used in the duplicate-page scenario. -/
def contactA : Contact :=
  { id := "a", firstName := "Ann", lastName := "", email := "", phone := "", notes := ""
    customField := [] }

/-- A contact store whose first page contains the same contact twice; every
later remote call fails (which does not matter for the filter behavior
under scrutiny). -/
def envDupPage : SyncEnv :=
  { fetchPage := fun off => if off = 0 then Except.ok [contactA, contactA] else Except.ok []
    pushLead := fun _ => Except.error ()
    fetchLead := fun _ => Except.error ()
    updateContact := fun _ => false }

/-- C1 counterexample: on a run whose single fetched page contains the same
contact id "a" twice, both occurrences pass the eligibility filter and both
are processed (`totalProcessed = 2`, the processing trace is `["a", "a"]`,
and nothing is counted as skipped), because the seen-id set is only
populated in the processing loop, which runs after the page-level filter
has already finished.  This contradicts the claim that the second
occurrence is filtered out. -/
theorem c1_dup_in_page_processed_twice :
    (periodicSync envDupPage "" "" 1).1.totalProcessed = 2 ∧
    (periodicSync envDupPage "" "" 1).1.processedIds = ["a", "a"] ∧
    (periodicSync envDupPage "" "" 1).1.totalSkipped = 0 ∧
    (periodicSync envDupPage "" "" 1).2 = true := by decide

/-- C1 (amended): within one run no contact id is processed on two distinct
pages — once a contact has been processed its id is in the seen set during
every later page's filter pass, so it is filtered out there; consequently,
as long as no single fetched page contains the same contact id twice, no
contact id is processed twice in the run (the processing trace has no
duplicates).  Duplicates inside one page, however, are both processed (see
the counterexample). -/
theorem c1_no_reprocessing_across_pages (env : SyncEnv) (now cutoff : String)
    (hpages : ∀ off contacts, env.fetchPage off = Except.ok contacts →
      (contacts.map Contact.id).Nodup) (fuel : Nat) :
    ((periodicSync env now cutoff fuel).1.processedIds).Nodup ∧
    (∀ c seen cut, c.id ∈ seen → isEligible c seen cut = false) := by
  constructor
  · exact (runSync_inv env now cutoff hpages fuel initState
      ⟨List.nodup_nil, by intro x hx; simp [initState] at hx⟩).1
  · exact fun c seen cut h => isEligible_of_seen c seen cut h

/-- A two-page store for the C1 witness: contact "a" on the first page and
again on the second page, each page free of internal duplicates. -/
def envTwoPages : SyncEnv :=
  { fetchPage := fun off =>
      if off = 0 then
        Except.ok [contactA, { contactA with id := "b" }, { contactA with id := "c" },
          { contactA with id := "d" }, { contactA with id := "e" },
          { contactA with id := "f" }, { contactA with id := "g" },
          { contactA with id := "h" }, { contactA with id := "i" },
          { contactA with id := "j" }]
      else if off = 10 then Except.ok [contactA]
      else Except.ok []
    pushLead := fun _ => Except.error ()
    fetchLead := fun _ => Except.error ()
    updateContact := fun _ => false }

/-- Witness for the amended C1: a concrete store whose pages have no
internal duplicates (contact "a" reappears on the second page) satisfies
the hypothesis, and the run's processing trace is duplicate-free. -/
theorem c1_no_reprocessing_across_pages_witness :
    (∀ off contacts, envTwoPages.fetchPage off = Except.ok contacts →
      (contacts.map Contact.id).Nodup) ∧
    ((periodicSync envTwoPages "" "" 3).1.processedIds).Nodup := by
  have hpages : ∀ off contacts, envTwoPages.fetchPage off = Except.ok contacts →
      (contacts.map Contact.id).Nodup := by
    intro off contacts h
    by_cases h0 : off = 0
    · simp only [envTwoPages, h0, if_pos rfl] at h
      cases h
      decide
    · by_cases h1 : off = 10
      · simp only [envTwoPages, h0, h1, if_neg h0, if_pos rfl] at h
        cases h
        decide
      · simp only [envTwoPages, if_neg h0, if_neg h1] at h
        cases h
        decide
  exact ⟨hpages, (c1_no_reprocessing_across_pages envTwoPages "" "" hpages 3).1⟩

/-! ### C2: null-vs-zero in the contact-to-lead mapping -/

theorem structurelyPayload_priceMin (g : GhlLead) :
    (structurelyPayload g).priceMin =
      if g.priceMin = "" then none else some (parseFloat g.priceMin) := rfl

theorem structurelyPayload_priceMax (g : GhlLead) :
    (structurelyPayload g).priceMax =
      if g.priceMax = "" then none else some (parseFloat g.priceMax) := rfl

theorem structurelyPayload_bedrooms (g : GhlLead) :
    (structurelyPayload g).bedrooms =
      if g.bedrooms = "" then none else some (parseInt g.bedrooms) := rfl

theorem structurelyPayload_bathrooms (g : GhlLead) :
    (structurelyPayload g).bathrooms =
      if g.bathrooms = "" then none else some (parseInt g.bathrooms) := rfl

theorem ghlLeadOfContact_priceMin (c : Contact) :
    (ghlLeadOfContact c).priceMin =
      jsOr (getCustomFieldValue c "property_min_price") "0" := rfl

theorem ghlLeadOfContact_priceMax (c : Contact) :
    (ghlLeadOfContact c).priceMax =
      jsOr (getCustomFieldValue c "property_max_price") "0" := rfl

theorem ghlLeadOfContact_bedrooms (c : Contact) :
    (ghlLeadOfContact c).bedrooms =
      jsOr (getCustomFieldValue c "bedrooms") "0" := rfl

theorem ghlLeadOfContact_bathrooms (c : Contact) :
    (ghlLeadOfContact c).bathrooms =
      jsOr (getCustomFieldValue c "bathrooms") "0" := rfl

/-- A contact with no custom fields at all. -/
def contactNoPriceFields : Contact :=
  { id := "c0", firstName := "Jo", lastName := "", email := "", phone := "", notes := ""
    customField := [] }

/-- C2 counterexample: mapping a contact with no price-min custom field
through the periodic-sync path yields `priceMin = 0` (the controller
substitutes the string "0" for the missing field before the numeric
conversion runs), not `null`; the same happens for priceMax, bedrooms and
bathrooms.  This contradicts the claimed null-on-absent rule. -/
theorem c2_absent_fields_yield_zero :
    (structurelyPayload (ghlLeadOfContact contactNoPriceFields)).priceMin =
        some (JSNum.num 0) ∧
    (structurelyPayload (ghlLeadOfContact contactNoPriceFields)).priceMin ≠ none ∧
    (structurelyPayload (ghlLeadOfContact contactNoPriceFields)).priceMax =
        some (JSNum.num 0) ∧
    (structurelyPayload (ghlLeadOfContact contactNoPriceFields)).bedrooms =
        some (JSNum.num 0) ∧
    (structurelyPayload (ghlLeadOfContact contactNoPriceFields)).bathrooms =
        some (JSNum.num 0) := by decide

/-- C2 (amended): the numeric conversion inside the push step yields `null`
exactly when the lead record's own field is the empty string — a case the
periodic controller never produces, because it substitutes "0" for an
absent custom field.  Hence: a contact with no price-min custom field is
mapped to `priceMin = 0` (not `null`), and likewise for priceMax, bedrooms
and bathrooms; a price-min value of "400000" is mapped to `400000`; a
non-empty unparseable value is mapped to `NaN` (not `null`). -/
theorem c2_zero_default_not_null :
    (∀ g : GhlLead, g.priceMin = "" → (structurelyPayload g).priceMin = none) ∧
    (∀ c : Contact, getCustomFieldValue c "property_min_price" = "" →
      (structurelyPayload (ghlLeadOfContact c)).priceMin = some (JSNum.num 0)) ∧
    (∀ c : Contact, getCustomFieldValue c "property_max_price" = "" →
      (structurelyPayload (ghlLeadOfContact c)).priceMax = some (JSNum.num 0)) ∧
    (∀ c : Contact, getCustomFieldValue c "bedrooms" = "" →
      (structurelyPayload (ghlLeadOfContact c)).bedrooms = some (JSNum.num 0)) ∧
    (∀ c : Contact, getCustomFieldValue c "bathrooms" = "" →
      (structurelyPayload (ghlLeadOfContact c)).bathrooms = some (JSNum.num 0)) ∧
    (∀ c : Contact, getCustomFieldValue c "property_min_price" = "400000" →
      (structurelyPayload (ghlLeadOfContact c)).priceMin = some (JSNum.num 400000)) ∧
    (∀ (c : Contact) (v : String), getCustomFieldValue c "property_min_price" = v →
      v ≠ "" → parseFloat v = JSNum.nan →
      (structurelyPayload (ghlLeadOfContact c)).priceMin = some JSNum.nan) := by
  refine ⟨?_, ?_, ?_, ?_, ?_, ?_, ?_⟩
  · intro g h
    rw [structurelyPayload_priceMin, h]
    rfl
  · intro c h
    rw [structurelyPayload_priceMin, ghlLeadOfContact_priceMin, h]
    decide
  · intro c h
    rw [structurelyPayload_priceMax, ghlLeadOfContact_priceMax, h]
    decide
  · intro c h
    rw [structurelyPayload_bedrooms, ghlLeadOfContact_bedrooms, h]
    decide
  · intro c h
    rw [structurelyPayload_bathrooms, ghlLeadOfContact_bathrooms, h]
    decide
  · intro c h
    rw [structurelyPayload_priceMin, ghlLeadOfContact_priceMin, h]
    decide
  · intro c v hv hne hnan
    rw [structurelyPayload_priceMin, ghlLeadOfContact_priceMin, hv]
    have h1 : jsOr v "0" = v := by simp [jsOr, hne]
    rw [h1, if_neg hne, hnan]

/-- A contact carrying the "400000" price-min value for the C2 witness. -/
def contactPrice400k : Contact :=
  { contactNoPriceFields with customField := [("property_min_price", "400000")] }

/-- Witness for the amended C2 at concrete inputs: the absent-field case on
`contactNoPriceFields` and the "400000" case on `contactPrice400k`. -/
theorem c2_zero_default_not_null_witness :
    (getCustomFieldValue contactNoPriceFields "property_min_price" = "" ∧
      (structurelyPayload (ghlLeadOfContact contactNoPriceFields)).priceMin =
        some (JSNum.num 0)) ∧
    (getCustomFieldValue contactPrice400k "property_min_price" = "400000" ∧
      (structurelyPayload (ghlLeadOfContact contactPrice400k)).priceMin =
        some (JSNum.num 400000)) :=
  ⟨⟨by decide, c2_zero_default_not_null.2.1 contactNoPriceFields (by decide)⟩,
    ⟨by decide, c2_zero_default_not_null.2.2.2.2.2.1 contactPrice400k (by decide)⟩⟩

/-! ### C3: the retry wrapper -/

/-- C3: with retry limit 3 and base delay 2, if the wrapped operation fails
on all of attempts 1..4 (attempt `k + 1` runs while `retryCount = k`), the
wrapper propagates the error of the final attempt unchanged, after exactly
three pauses of durations 2×1, 2×2, 2×3; and if some attempt succeeds
(all earlier ones having failed), its result is returned and no error is
raised. -/
theorem c3_retry_exhaustion :
    (∀ (E A : Type) (op : Nat → Except E A) (e : Nat → E),
      (∀ k, k ≤ 3 → op k = Except.error (e k)) →
      retryCall op 2 3 = (Except.error (e 3), [2 * 1, 2 * 2, 2 * 3])) ∧
    (∀ (E A : Type) (op : Nat → Except E A) (a : A) (j : Nat), j ≤ 3 →
      (∀ k, k < j → ∃ err, op k = Except.error err) → op j = Except.ok a →
      (retryCall op 2 3).1 = Except.ok a) := by
  constructor
  · intro E A op e h
    have h0 := h 0 (by norm_num)
    have h1 := h 1 (by norm_num)
    have h2 := h 2 (by norm_num)
    have h3 := h 3 (by norm_num)
    simp [retryCall, retryGo, h0, h1, h2, h3]
  · intro E A op a j hj hf hok
    interval_cases j
    · simp [retryCall, retryGo, hok]
    · obtain ⟨e0, h0⟩ := hf 0 (by norm_num)
      simp [retryCall, retryGo, h0, hok]
    · obtain ⟨e0, h0⟩ := hf 0 (by norm_num)
      obtain ⟨e1, h1⟩ := hf 1 (by norm_num)
      simp [retryCall, retryGo, h0, h1, hok]
    · obtain ⟨e0, h0⟩ := hf 0 (by norm_num)
      obtain ⟨e1, h1⟩ := hf 1 (by norm_num)
      obtain ⟨e2, h2⟩ := hf 2 (by norm_num)
      simp [retryCall, retryGo, h0, h1, h2, hok]

/-- An operation that fails on every attempt, remembering the attempt
index in the error. -/
def opAllFail : Nat → Except Nat Nat := fun k => Except.error k

/-- An operation that fails on attempts 1 and 2 and succeeds on attempt 3. -/
def opThirdOk : Nat → Except Unit Nat := fun k => if k = 2 then Except.ok 42 else Except.error ()

/-- Witness for C3: on an always-failing operation the wrapper returns the
attempt-4 error after pauses [2, 4, 6]; on an operation that first succeeds
at attempt 3 the wrapper returns that success. -/
theorem c3_retry_exhaustion_witness :
    ((∀ k, k ≤ 3 → opAllFail k = Except.error k) ∧
      retryCall opAllFail 2 3 = (Except.error 3, [2 * 1, 2 * 2, 2 * 3])) ∧
    ((2 ≤ 3 ∧ (∀ k, k < 2 → ∃ err, opThirdOk k = Except.error err) ∧
        opThirdOk 2 = Except.ok 42) ∧
      (retryCall opThirdOk 2 3).1 = Except.ok 42) :=
  ⟨⟨fun k _ => rfl, c3_retry_exhaustion.1 Nat Nat opAllFail (fun k => k)
      (fun k _ => rfl)⟩,
    ⟨⟨by norm_num, fun k hk => ⟨(), by simp [opThirdOk]; omega⟩, rfl⟩,
      c3_retry_exhaustion.2 Unit Nat opThirdOk 42 2 (by norm_num)
        (fun k hk => ⟨(), by simp [opThirdOk]; omega⟩) rfl⟩⟩

/-! ### C4: partial-failure isolation -/

theorem runSync_short_page (env : SyncEnv) (now cutoff : String) (st : RunState)
    (fuel : Nat) (contacts : List Contact)
    (h : env.fetchPage st.offset = Except.ok contacts)
    (hne : contacts.length ≠ 0) (hlt : contacts.length < SYNC_BATCH_SIZE) :
    runSync env now cutoff (fuel + 1) st =
      ({ processPage env now cutoff st contacts with
          offset := (processPage env now cutoff st contacts).offset + contacts.length },
        true) := by
  unfold runSync
  rw [h]
  dsimp only
  rw [if_neg hne, if_pos hlt]

/-- C4: in a batch of three eligible contacts where the push for the second
fails (after its internal retries) while both remote steps succeed for the
first and the third, the run ends with processed = 3, succeeded = 2,
failed = 1, skipped = 0; write-backs happened exactly for the first and
third contacts; and the run still completes normally (the failure aborts
neither the batch nor the run). -/
theorem c4_partial_failure_isolation (env : SyncEnv) (now cutoff : String)
    (a b c : Contact) (la la2 lc lc2 : StructLead)
    (hfetch : env.fetchPage 0 = Except.ok [a, b, c])
    (ha : isEligible a [] cutoff = true)
    (hb : isEligible b [] cutoff = true)
    (hc : isEligible c [] cutoff = true)
    (hpa : env.pushLead (structurelyPayload (ghlLeadOfContact a)) = Except.ok la)
    (hfa : env.fetchLead la.id = Except.ok la2)
    (hua : env.updateContact a.id = true)
    (hpb : env.pushLead (structurelyPayload (ghlLeadOfContact b)) = Except.error ())
    (hpc : env.pushLead (structurelyPayload (ghlLeadOfContact c)) = Except.ok lc)
    (hfc : env.fetchLead lc.id = Except.ok lc2)
    (huc : env.updateContact c.id = true) :
    (periodicSync env now cutoff 1).1.totalProcessed = 3 ∧
    (periodicSync env now cutoff 1).1.totalSuccess = 2 ∧
    (periodicSync env now cutoff 1).1.totalFailed = 1 ∧
    (periodicSync env now cutoff 1).1.totalSkipped = 0 ∧
    (periodicSync env now cutoff 1).1.writes.map Prod.fst = [a.id, c.id] ∧
    (periodicSync env now cutoff 1).2 = true := by
  have hfetch0 : env.fetchPage initState.offset = Except.ok [a, b, c] := hfetch
  have hrun := runSync_short_page env now cutoff initState 0 [a, b, c] hfetch0
    (by norm_num) (by norm_num [SYNC_BATCH_SIZE])
  have hfil : [a, b, c].filter (fun x => isEligible x initState.syncedContacts cutoff) =
      [a, b, c] := by
    have hseen : initState.syncedContacts = [] := rfl
    rw [hseen]
    simp [List.filter_cons, ha, hb, hc]
  have hpp : processPage env now cutoff initState [a, b, c] =
      processContact env now
        (processContact env now
          (processContact env now
            { initState with
                totalSkipped := initState.totalSkipped + (([a, b, c] : List Contact).length -
                  ([a, b, c].filter (fun x => isEligible x initState.syncedContacts cutoff)).length) }
            a) b) c := by
    unfold processPage
    rw [hfil]
    rfl
  rw [hfil] at hpp
  rw [processContact_ok env now _ a la la2 hpa hfa hua] at hpp
  rw [processContact_push_error env now _ b hpb] at hpp
  rw [processContact_ok env now _ c lc lc2 hpc hfc huc] at hpp
  unfold periodicSync
  rw [hrun, hpp]
  refine ⟨rfl, rfl, rfl, rfl, ?_, rfl⟩
  simp [initState]

/-- A bare contact with a given id, used in concrete run scenarios. -/
def contactK (i : String) : Contact :=
  { id := i, firstName := "K", lastName := "", email := "", phone := "", notes := ""
    customField := [] }

/-- Concrete environment for the C4 witness: one page of three contacts,
the push for "c2" fails, everything else succeeds. -/
def envC4 : SyncEnv :=
  { fetchPage := fun off =>
      if off = 0 then Except.ok [contactK "c1", contactK "c2", contactK "c3"]
      else Except.ok []
    pushLead := fun p =>
      if p.externalLeadId = "c2" then Except.error () else Except.ok { id := "L-" ++ p.externalLeadId }
    fetchLead := fun i => Except.ok { id := i }
    updateContact := fun _ => true }

/-- Witness for C4 at the concrete environment `envC4`. -/
theorem c4_partial_failure_isolation_witness :
    envC4.fetchPage 0 = Except.ok [contactK "c1", contactK "c2", contactK "c3"] ∧
    (periodicSync envC4 "" "" 1).1.totalProcessed = 3 ∧
    (periodicSync envC4 "" "" 1).1.totalSuccess = 2 ∧
    (periodicSync envC4 "" "" 1).1.totalFailed = 1 ∧
    (periodicSync envC4 "" "" 1).1.totalSkipped = 0 ∧
    (periodicSync envC4 "" "" 1).1.writes.map Prod.fst = ["c1", "c3"] ∧
    (periodicSync envC4 "" "" 1).2 = true := by
  have h := c4_partial_failure_isolation envC4 "" ""
    (contactK "c1") (contactK "c2") (contactK "c3")
    { id := "L-c1" } { id := "L-c1" } { id := "L-c3" } { id := "L-c3" }
    rfl (by decide) (by decide) (by decide) rfl rfl rfl rfl rfl rfl rfl
  exact ⟨rfl, h.1, h.2.1, h.2.2.1, h.2.2.2.1, h.2.2.2.2.1, h.2.2.2.2.2⟩

/-! ### C5: the eligibility threshold -/

theorem digitChar_lt_iff : ∀ d < 10, ∀ e < 10, (digitChar d < digitChar e ↔ d < e) := by
  decide

theorem digitChar_eq_of_nlt : ∀ d < 10, ∀ e < 10,
    ¬(digitChar d < digitChar e) → ¬(digitChar e < digitChar d) → d = e := by
  decide

theorem mul_add_lt_mul_add_iff (p d1 d2 r1 r2 : Nat) (h1 : r1 < p) (h2 : r2 < p) :
    (p * d1 + r1 < p * d2 + r2) ↔ (d1 < d2 ∨ (d1 = d2 ∧ r1 < r2)) := by
  constructor
  · intro h
    rcases Nat.lt_trichotomy d1 d2 with hd | hd | hd
    · exact Or.inl hd
    · subst hd
      exact Or.inr ⟨rfl, Nat.lt_of_add_lt_add_left h⟩
    · exfalso
      have hcon : p * d2 + r2 < p * d1 + r1 := by
        calc p * d2 + r2 < p * d2 + p := Nat.add_lt_add_left h2 _
          _ = p * (d2 + 1) := by ring
          _ ≤ p * d1 := Nat.mul_le_mul_left p (Nat.succ_le_of_lt hd)
          _ ≤ p * d1 + r1 := Nat.le_add_right _ _
      exact absurd h (Nat.lt_asymm hcon)
  · intro h
    rcases h with hd | ⟨hd, hr⟩
    · calc p * d1 + r1 < p * d1 + p := Nat.add_lt_add_left h1 _
        _ = p * (d1 + 1) := by ring
        _ ≤ p * d2 := Nat.mul_le_mul_left p (Nat.succ_le_of_lt hd)
        _ ≤ p * d2 + r2 := Nat.le_add_right _ _
    · subst hd
      exact Nat.add_lt_add_left hr _

theorem padDec_lt_iff : ∀ (w a b : Nat), a < 10 ^ w → b < 10 ^ w →
    (charListLt (padDec w a) (padDec w b) = true ↔ a < b) := by
  intro w
  induction w with
  | zero =>
    intro a b ha hb
    simp [padDec, charListLt]
    omega
  | succ w ih =>
    intro a b ha hb
    have hp : 0 < 10 ^ w := pow_pos (by norm_num) w
    have hd1 : a / 10 ^ w < 10 := by
      rw [Nat.div_lt_iff_lt_mul hp]
      calc a < 10 ^ (w + 1) := ha
        _ = 10 * 10 ^ w := by ring
    have hd2 : b / 10 ^ w < 10 := by
      rw [Nat.div_lt_iff_lt_mul hp]
      calc b < 10 ^ (w + 1) := hb
        _ = 10 * 10 ^ w := by ring
    have hr1 : a % 10 ^ w < 10 ^ w := Nat.mod_lt _ hp
    have hr2 : b % 10 ^ w < 10 ^ w := Nat.mod_lt _ hp
    have hkey : a < b ↔
        (a / 10 ^ w < b / 10 ^ w ∨
          (a / 10 ^ w = b / 10 ^ w ∧ a % 10 ^ w < b % 10 ^ w)) := by
      conv_lhs => rw [← Nat.div_add_mod a (10 ^ w), ← Nat.div_add_mod b (10 ^ w)]
      exact mul_add_lt_mul_add_iff (10 ^ w) _ _ _ _ hr1 hr2
    show charListLt (digitChar (a / 10 ^ w) :: padDec w (a % 10 ^ w))
        (digitChar (b / 10 ^ w) :: padDec w (b % 10 ^ w)) = true ↔ a < b
    simp only [charListLt]
    by_cases h1 : digitChar (a / 10 ^ w) < digitChar (b / 10 ^ w)
    · rw [if_pos h1]
      simp only [true_iff]
      exact hkey.mpr (Or.inl ((digitChar_lt_iff _ hd1 _ hd2).mp h1))
    · rw [if_neg h1]
      by_cases h2 : digitChar (b / 10 ^ w) < digitChar (a / 10 ^ w)
      · rw [if_pos h2]
        constructor
        · intro hF
          cases hF
        · intro hab
          exfalso
          rcases hkey.mp hab with hd | ⟨hd, _⟩
          · exact h1 ((digitChar_lt_iff _ hd1 _ hd2).mpr hd)
          · rw [hd] at h2
            exact lt_irrefl _ h2
      · rw [if_neg h2]
        have hde : a / 10 ^ w = b / 10 ^ w := digitChar_eq_of_nlt _ hd1 _ hd2 h1 h2
        rw [ih _ _ hr1 hr2, hkey, hde]
        simp

theorem isoStr_lt_iff (a b : Nat) (ha : a < 10 ^ 15) (hb : b < 10 ^ 15) :
    (jsStrLt (isoStr a) (isoStr b) = true ↔ a < b) :=
  padDec_lt_iff 15 a b ha hb

theorem isoStr_ne_empty (n : Nat) : isoStr n ≠ "" := by
  intro h
  have hd : (isoStr n).data = "".data := by rw [h]
  simp [isoStr, padDec] at hd

theorem isEligible_false_iff (c : Contact) (seen : List String) (cutoff : String)
    (hseen : c.id ∉ seen) (hne : lastSyncedOf c ≠ "") :
    (isEligible c seen cutoff = false) ↔ jsStrLt cutoff (lastSyncedOf c) = true := by
  unfold isEligible
  rw [if_neg (by simpa using hseen)]
  by_cases h : jsStrLt cutoff (lastSyncedOf c) = true
  · rw [if_pos ⟨hne, h⟩]
    simp [h]
  · rw [if_neg (fun hc => h hc.2)]
    simp [h]

theorem isEligible_no_lastSynced (c : Contact) (seen : List String) (cutoff : String)
    (hseen : c.id ∉ seen) (h : lastSyncedOf c = "") :
    isEligible c seen cutoff = true := by
  unfold isEligible
  rw [if_neg (by simpa using hseen)]
  rw [if_neg (fun hc => hc.1 h)]

/-- A contact whose last-synced field holds the instant 100 (in `isoStr`
form). -/
def contactSyncedAt100 : Contact :=
  { id := "s", firstName := "S", lastName := "", email := "", phone := "", notes := ""
    customField := [("structurely_last_synced", isoStr 100)] }

/-- C5 counterexample: for a contact with last-synced instant T = 100 and a
window of 5 time units, the cutoff-instant 100 satisfies
`cutoff-instant < T + window`, so the claim says the filter must return
false; but the code compares `lastSynced > cutoff` directly, the two
strings are equal, and the filter returns true.  The threshold sits at `T`,
not at `T + window`. -/
theorem c5_cutoff_at_T_still_eligible :
    (100 : Nat) < 100 + 5 ∧
    lastSyncedOf contactSyncedAt100 = isoStr 100 ∧
    isEligible contactSyncedAt100 [] (isoStr 100) = true := by decide

/-- C5 (amended): for a contact with recorded last-synced instant T, the
filter (given the contact id is not in the seen set) returns true for a
cutoff-instant ≥ T and false for a cutoff-instant < T — the threshold is at
T itself, not at T + window.  Equivalently, since the controller passes
`cutoff-instant = run-start − window`, the contact is eligible at a run
started at `now` exactly when `T + window ≤ now`.  With no recorded
last-synced value the filter returns true unconditionally. -/
theorem c5_eligibility_threshold :
    (∀ (c : Contact) (seen : List String) (T n : Nat), T < 10 ^ 15 → n < 10 ^ 15 →
      lastSyncedOf c = isoStr T → c.id ∉ seen →
      (isEligible c seen (isoStr n) = true ↔ T ≤ n)) ∧
    (∀ (c : Contact) (seen : List String) (cutoff : String),
      lastSyncedOf c = "" → c.id ∉ seen → isEligible c seen cutoff = true) ∧
    (∀ (c : Contact) (seen : List String) (T nw window : Nat),
      T < 10 ^ 15 → nw < 10 ^ 15 → window ≤ nw →
      lastSyncedOf c = isoStr T → c.id ∉ seen →
      (isEligible c seen (isoStr (nw - window)) = true ↔ T + window ≤ nw)) := by
  have main : ∀ (c : Contact) (seen : List String) (T n : Nat), T < 10 ^ 15 → n < 10 ^ 15 →
      lastSyncedOf c = isoStr T → c.id ∉ seen →
      (isEligible c seen (isoStr n) = true ↔ T ≤ n) := by
    intro c seen T n hT hn hls hseen
    have hne : lastSyncedOf c ≠ "" := by rw [hls]; exact isoStr_ne_empty T
    have hchar := isEligible_false_iff c seen (isoStr n) hseen hne
    rw [hls] at hchar
    constructor
    · intro he
      by_contra hTn
      have hlt : jsStrLt (isoStr n) (isoStr T) = true :=
        (isoStr_lt_iff n T hn hT).mpr (by omega)
      have hfal := hchar.mpr hlt
      rw [he] at hfal
      cases hfal
    · intro hTn
      cases hbb : isEligible c seen (isoStr n) with
      | true => rfl
      | false =>
        have hlt := (isoStr_lt_iff n T hn hT).mp (hchar.mp hbb)
        omega
  refine ⟨main, ?_, ?_⟩
  · intro c seen cutoff h hseen
    exact isEligible_no_lastSynced c seen cutoff hseen h
  · intro c seen T nw window hT hn hwn hls hseen
    have h := main c seen T (nw - window) hT (by omega) hls hseen
    rw [h]
    omega

/-- Witness for the amended C5: the contact synced at instant 100, with an
empty seen set, is ineligible at cutoff-instant 99 and eligible at
cutoff-instant 105; in run terms (window 5), eligible at a run starting at
110 and, per the counterexample, already eligible at cutoff-instant 100. -/
theorem c5_eligibility_threshold_witness :
    ((100 : Nat) < 10 ^ 15 ∧ (105 : Nat) < 10 ^ 15 ∧
      lastSyncedOf contactSyncedAt100 = isoStr 100 ∧
      contactSyncedAt100.id ∉ ([] : List String)) ∧
    (isEligible contactSyncedAt100 [] (isoStr 105) = true ↔ (100 : Nat) ≤ 105) ∧
    (isEligible contactSyncedAt100 [] (isoStr 99) = true ↔ (100 : Nat) ≤ 99) := by
  refine ⟨⟨by norm_num, by norm_num, by decide, by simp⟩, ?_, ?_⟩
  · exact c5_eligibility_threshold.1 contactSyncedAt100 [] 100 105
      (by norm_num) (by norm_num) (by decide) (by simp)
  · exact c5_eligibility_threshold.1 contactSyncedAt100 [] 100 99
      (by norm_num) (by norm_num) (by decide) (by simp)

/-! ### C6: page-fetch failure skips the page and continues -/

/-- C6: when fetching the page at the current offset fails (after the
fetch's own retries), the loop simply advances the offset by one page-width
(`SYNC_BATCH_SIZE`) and continues with the next iteration; the state is
otherwise untouched, so the failed page's contacts appear in no counter and
produce no write-back, and the run is not aborted. -/
theorem c6_page_fetch_failure (env : SyncEnv) (now cutoff : String) (st : RunState)
    (fuel : Nat) (h : env.fetchPage st.offset = Except.error ()) :
    runSync env now cutoff (fuel + 1) st =
      runSync env now cutoff fuel { st with offset := st.offset + SYNC_BATCH_SIZE } := by
  conv_lhs => unfold runSync
  rw [h]

/-- A store whose first page fetch fails and whose second page holds one
contact. -/
def envFetchErr : SyncEnv :=
  { fetchPage := fun off =>
      if off = 0 then Except.error () else if off = 10 then Except.ok [contactK "d"]
      else Except.ok []
    pushLead := fun p => Except.ok { id := "L-" ++ p.externalLeadId }
    fetchLead := fun i => Except.ok { id := i }
    updateContact := fun _ => true }

/-- Witness for C6: on `envFetchErr` the failed first fetch reduces to the
same run continued at offset 10; the run then processes the second page's
contact and completes. -/
theorem c6_page_fetch_failure_witness :
    envFetchErr.fetchPage 0 = Except.error () ∧
    runSync envFetchErr "" "" 2 initState =
      runSync envFetchErr "" "" 1 { initState with offset := 10 } ∧
    (periodicSync envFetchErr "" "" 2).1.totalProcessed = 1 ∧
    (periodicSync envFetchErr "" "" 2).1.totalSuccess = 1 ∧
    (periodicSync envFetchErr "" "" 2).2 = true := by
  refine ⟨rfl, ?_, by decide, by decide, by decide⟩
  exact c6_page_fetch_failure envFetchErr "" "" initState 1 rfl

/-! ### C7: the lead-to-contact write-back map -/

/-- The lead of the spec's fetch-back scenario. -/
def leadL1 : StructLead :=
  { id := "L1", stages := some ["new", "qualified"], muted := false }

/-- C7: for every fetched lead, the write-back map carries the remote lead
id simultaneously under the canonical key `structurely_lead_id` and under
every legacy alias key (`structurely_id`, `structurely_reference`,
`structurely_lead_ref`); the conversation status under both status keys as
the comma-joined stage sequence; and the muted indicator under both muted
keys as the literal "Yes"/"No".  In particular the spec's concrete lead
`{id:"L1", stages:["new","qualified"], muted:false}` produces
`structurely_lead_id = "L1"`,
`structurely_ai_conversation_status = "new, qualified"` and
`structurely_muted = "No"`. -/
theorem c7_writeback_map (lead : StructLead) (now : String) :
    (customFieldData lead now).lookup "structurely_lead_id" = some (CVal.s lead.id) ∧
    (customFieldData lead now).lookup "structurely_id" = some (CVal.s lead.id) ∧
    (customFieldData lead now).lookup "structurely_reference" = some (CVal.s lead.id) ∧
    (customFieldData lead now).lookup "structurely_lead_ref" = some (CVal.s lead.id) ∧
    (customFieldData lead now).lookup "structurely_ai_conversation_status" =
      some (CVal.s (stagesJoined lead)) ∧
    (customFieldData lead now).lookup "str_conversation_status" =
      some (CVal.s (stagesJoined lead)) ∧
    (customFieldData lead now).lookup "structurely_muted" =
      some (CVal.s (if lead.muted then "Yes" else "No")) ∧
    (customFieldData lead now).lookup "str_muted" =
      some (CVal.s (if lead.muted then "Yes" else "No")) ∧
    (customFieldData leadL1 now).lookup "structurely_lead_id" = some (CVal.s "L1") ∧
    (customFieldData leadL1 now).lookup "structurely_ai_conversation_status" =
      some (CVal.s "new, qualified") ∧
    (customFieldData leadL1 now).lookup "structurely_muted" = some (CVal.s "No") :=
  ⟨rfl, rfl, rfl, rfl, rfl, rfl, rfl, rfl, rfl, rfl, rfl⟩

/-! ### C8: termination of the pagination loop -/

/-- A contact store on which every page fetch fails. -/
def envAllErr : SyncEnv :=
  { fetchPage := fun _ => Except.error ()
    pushLead := fun _ => Except.error ()
    fetchLead := fun _ => Except.error ()
    updateContact := fun _ => false }

theorem runSync_allErr_not_done (now cutoff : String) :
    ∀ (fuel : Nat) (st : RunState), (runSync envAllErr now cutoff fuel st).2 = false := by
  intro fuel
  induction fuel with
  | zero => intro st; rfl
  | succ fuel ih =>
    intro st
    unfold runSync
    exact ih _

/-- C8 counterexample: the pagination loop does not terminate for every
sequence of page responses — on a store whose every fetch fails, each
iteration catches the error, advances the offset and continues, so the run
never reaches DONE and no run-level error occurs (the fetch error is
recovered inside the loop).  Stated in the fuel model: no amount of fuel
makes the loop exit through a stop condition. -/
theorem c8_nontermination_on_persistent_fetch_failure :
    ¬ runTerminates envAllErr "" "" := by
  intro h
  obtain ⟨fuel, hf⟩ := h
  have h2 : (periodicSync envAllErr "" "" fuel).2 = false :=
    runSync_allErr_not_done "" "" fuel initState
  rw [hf] at h2
  cases h2

/-- C8 (amended): the loop reaches DONE in the very iteration in which a
fetched page is empty, and likewise (after processing it) when a page holds
fewer contacts than the page size; but termination is not guaranteed for
every response sequence: under persistent fetch failure the loop never
reaches DONE — each failure advances the offset and continues forever. -/
theorem c8_termination_conditions :
    (∀ (env : SyncEnv) (now cutoff : String) (st : RunState) (fuel : Nat)
        (contacts : List Contact),
      env.fetchPage st.offset = Except.ok contacts → contacts.length = 0 →
      runSync env now cutoff (fuel + 1) st = (st, true)) ∧
    (∀ (env : SyncEnv) (now cutoff : String) (st : RunState) (fuel : Nat)
        (contacts : List Contact),
      env.fetchPage st.offset = Except.ok contacts → contacts.length ≠ 0 →
      contacts.length < SYNC_BATCH_SIZE →
      (runSync env now cutoff (fuel + 1) st).2 = true) ∧
    (∀ (now cutoff : String) (fuel : Nat) (st : RunState),
      (runSync envAllErr now cutoff fuel st).2 = false) := by
  refine ⟨?_, ?_, runSync_allErr_not_done⟩
  · intro env now cutoff st fuel contacts h hz
    unfold runSync
    rw [h]
    dsimp only
    rw [if_pos hz]
  · intro env now cutoff st fuel contacts h hz hlt
    rw [runSync_short_page env now cutoff st fuel contacts h hz hlt]

/-- A store that immediately returns an empty page. -/
def envEmptyPage : SyncEnv :=
  { fetchPage := fun _ => Except.ok []
    pushLead := fun _ => Except.error ()
    fetchLead := fun _ => Except.error ()
    updateContact := fun _ => false }

/-- Witness for the amended C8: on a store returning an empty first page
the loop stops at once with the initial state. -/
theorem c8_termination_conditions_witness :
    (envEmptyPage.fetchPage 0 = Except.ok ([] : List Contact) ∧
      ([] : List Contact).length = 0) ∧
    runSync envEmptyPage "" "" 1 initState = (initState, true) :=
  ⟨⟨rfl, rfl⟩, c8_termination_conditions.1 envEmptyPage "" "" initState 0 [] rfl rfl⟩

/-! ### C9 and C10: the seen set, failed contacts, and the lexicographic
recency comparison -/

theorem charListLt_iff_lt : ∀ a b : List Char, charListLt a b = true ↔ a < b := by
  intro a
  induction a with
  | nil =>
    intro b
    cases b with
    | nil =>
      simp only [charListLt, Bool.false_eq_true, false_iff]
      intro h
      cases h
    | cons y ys =>
      simp only [charListLt, true_iff]
      exact List.Lex.nil
  | cons x xs ih =>
    intro b
    cases b with
    | nil =>
      simp only [charListLt, Bool.false_eq_true, false_iff]
      intro h
      cases h
    | cons y ys =>
      simp only [charListLt]
      by_cases h1 : x < y
      · rw [if_pos h1]
        simp only [true_iff]
        exact List.Lex.rel h1
      · rw [if_neg h1]
        by_cases h2 : y < x
        · rw [if_pos h2]
          simp only [Bool.false_eq_true, false_iff]
          intro h
          cases h with
          | rel hr => exact h1 hr
          | cons hc => exact absurd h2 (lt_irrefl x)
        · rw [if_neg h2]
          have hxy : x = y := le_antisymm (not_lt.mp h2) (not_lt.mp h1)
          subst hxy
          rw [ih ys]
          constructor
          · intro h
            exact List.Lex.cons h
          · intro h
            cases h with
            | rel hr => exact absurd hr h1
            | cons hc => exact hc

/-- C9: the controller adds the contact id to the seen set before the
two-step sync: (i) when the push fails (after its retries), the resulting
state still has the id inserted into the seen set, the failure counted, and
— crucially — no write-back recorded, so the last-synced field is left
unchanged by the failed attempt; (ii) the id lands in the seen set whatever
the sync outcome; (iii) a contact whose id is in the seen set is filtered
out on any later page of the same run; (iv) a contact eligible at this
run's cutoff stays eligible at any later run's (not smaller) cutoff, with
a fresh (empty) seen set. -/
theorem c9_failed_contact_not_retried_this_run :
    (∀ (env : SyncEnv) (now : String) (st : RunState) (c : Contact),
      env.pushLead (structurelyPayload (ghlLeadOfContact c)) = Except.error () →
      processContact env now st c =
        { st with totalProcessed := st.totalProcessed + 1
                  processedIds := st.processedIds ++ [c.id]
                  syncedContacts := st.syncedContacts.insert c.id
                  totalFailed := st.totalFailed + 1 }) ∧
    (∀ (env : SyncEnv) (now : String) (st : RunState) (c : Contact),
      c.id ∈ (processContact env now st c).syncedContacts) ∧
    (∀ (c : Contact) (seen : List String) (cutoff : String),
      c.id ∈ seen → isEligible c seen cutoff = false) ∧
    (∀ (c : Contact) (cutoff cutoff2 : String),
      isEligible c [] cutoff = true → jsStrLt cutoff2 cutoff = false →
      isEligible c [] cutoff2 = true) := by
  refine ⟨processContact_push_error, ?_, isEligible_of_seen, ?_⟩
  · intro env now st c
    rw [processContact_syncedContacts]
    simp [List.mem_insert_iff]
  · intro c cutoff cutoff2 helig hle
    by_cases hv : lastSyncedOf c = ""
    · exact isEligible_no_lastSynced c [] cutoff2 (by simp) hv
    · have h1 := isEligible_false_iff c [] cutoff (by simp) hv
      have h2 := isEligible_false_iff c [] cutoff2 (by simp) hv
      have hnc : ¬ jsStrLt cutoff (lastSyncedOf c) = true := by
        intro hl
        have hfalse := h1.mpr hl
        rw [helig] at hfalse
        cases hfalse
      cases hb : isEligible c [] cutoff2 with
      | true => rfl
      | false =>
        exfalso
        have hl2 : charListLt cutoff2.data (lastSyncedOf c).data = true := h2.mp hb
        rcases lt_trichotomy cutoff.data (lastSyncedOf c).data with h | h | h
        · exact hnc ((charListLt_iff_lt _ _).mpr h)
        · have hcc : charListLt cutoff2.data cutoff.data = true := by
            rw [h]
            exact hl2
          rw [jsStrLt] at hle
          rw [hle] at hcc
          cases hcc
        · have h2v : cutoff2.data < (lastSyncedOf c).data := (charListLt_iff_lt _ _).mp hl2
          have hcc := (charListLt_iff_lt cutoff2.data cutoff.data).mpr (lt_trans h2v h)
          rw [jsStrLt] at hle
          rw [hle] at hcc
          cases hcc

/-- A contact pushed by the C9 witness whose push always fails. -/
def contactFailing : Contact :=
  { id := "f1", firstName := "F", lastName := "", email := "", phone := "", notes := ""
    customField := [] }

/-- Witness for C9 on concrete inputs: a failed push leaves exactly the
expected state (id seen, failure counted, no write-back), the id is then
filtered out, and an eligible contact stays eligible at a later cutoff. -/
theorem c9_failed_contact_not_retried_this_run_witness :
    (envAllErr.pushLead (structurelyPayload (ghlLeadOfContact contactFailing)) =
      Except.error ()) ∧
    processContact envAllErr "" initState contactFailing =
      { initState with totalProcessed := 1, processedIds := ["f1"]
                       syncedContacts := ["f1"], totalFailed := 1 } ∧
    isEligible contactFailing ["f1"] "" = false ∧
    (isEligible contactFailing [] "a" = true ∧ jsStrLt "b" "a" = false →
      isEligible contactFailing [] "b" = true) := by
  refine ⟨rfl, ?_, ?_, ?_⟩
  · have h := c9_failed_contact_not_retried_this_run.1 envAllErr "" initState
      contactFailing rfl
    rw [h]
    decide
  · exact c9_failed_contact_not_retried_this_run.2.2.1 contactFailing ["f1"] ""
      (by decide)
  · intro hpair
    exact c9_failed_contact_not_retried_this_run.2.2.2 contactFailing "a" "b"
      hpair.1 hpair.2

/-- The contact whose last-synced field holds the non-date string "zzz". -/
def contactZzz : Contact :=
  { id := "z", firstName := "Z", lastName := "", email := "", phone := "", notes := ""
    customField := [("structurely_last_synced", "zzz")] }

/-- C10: the recency check is a lexicographic string comparison of the
stored value against the cutoff string, not a timestamp parse: for any
contact with a non-empty stored last-synced value (and id not in the seen
set) the filter rejects it exactly when the stored string is
lexicographically greater than the cutoff string; consequently a non-date
value such as "zzz" — lexicographically above every ISO-8601 cutoff string
(those begin with a digit) — makes the contact ineligible on every run. -/
theorem c10_lexicographic_recency :
    (∀ (c : Contact) (seen : List String) (cutoff : String),
      c.id ∉ seen → lastSyncedOf c ≠ "" →
      (isEligible c seen cutoff = false ↔ jsStrLt cutoff (lastSyncedOf c) = true)) ∧
    (∀ (seen : List String) (cutoff : String), jsStrLt cutoff "zzz" = true →
      isEligible contactZzz seen cutoff = false) := by
  constructor
  · exact isEligible_false_iff
  · intro seen cutoff h
    by_cases hs : contactZzz.id ∈ seen
    · exact isEligible_of_seen _ _ _ hs
    · refine (isEligible_false_iff contactZzz seen cutoff hs (by decide)).mpr ?_
      have hz : lastSyncedOf contactZzz = "zzz" := by decide
      rw [hz]
      exact h

/-- Witness for C10 at a concrete ISO-format cutoff string. -/
theorem c10_lexicographic_recency_witness :
    (lastSyncedOf contactZzz ≠ "" ∧ contactZzz.id ∉ ([] : List String) ∧
      jsStrLt "2025-06-01T00:00:00.000Z" "zzz" = true) ∧
    (isEligible contactZzz [] "2025-06-01T00:00:00.000Z" = false ↔
      jsStrLt "2025-06-01T00:00:00.000Z" (lastSyncedOf contactZzz) = true) ∧
    isEligible contactZzz [] "2025-06-01T00:00:00.000Z" = false := by
  refine ⟨⟨by decide, by simp, by decide⟩, ?_, ?_⟩
  · exact c10_lexicographic_recency.1 contactZzz [] "2025-06-01T00:00:00.000Z"
      (by simp) (by decide)
  · exact c10_lexicographic_recency.2 [] "2025-06-01T00:00:00.000Z" (by decide)
